import Mathlib

/-!
# Verification of the step-challenge band app (REACT-NATIVE repository)

Shallow embedding of the device-session / telemetry code of the repository.
The repository contains several near-duplicate variants of one app; where the
variants differ in the logic a claim is about, each relevant variant is
embedded separately:

* `part_000` (`src/unnamed/part_000`): heart-rate decode selecting the value
  width from bit 0 of the flags byte;
* the "weekly reset" variant
  (`src/WORKING APPS/STEP-CHALLENGE-APP/stepchall- LT - weekly reset/app/index.tsx`),
  abbreviated `WR` below;
* the "add weekly total" variant (`stepchall - LT - add weekly total`),
  abbreviated `AWT`;
* the "crash changes" variant (`stepchall - LT- crash changes`),
  abbreviated `Crash`;
* `part_002` (`src/unnamed/part_002`), abbreviated `P2`.

Byte buffers are modelled as `List Nat` (one entry per byte).  JavaScript
`Buffer` reads (`readUInt16LE`, `readUInt32LE`) throw a `RangeError` when the
read extends past the end of the buffer; a decode that would throw (or whose
result is the JS value `undefined`) is modelled as `none`.
-/

namespace StepChallenge

/-- Little-endian 16-bit read at `off`, as `Buffer.readUInt16LE(off)` computes
it when in bounds (`off + 2 ≤ length`). -/
def readUInt16LE (data : List Nat) (off : Nat) : Nat :=
  data.getD off 0 + 256 * data.getD (off + 1) 0

/-- Little-endian 32-bit read at `off`, as `Buffer.readUInt32LE(off)` computes
it when in bounds (`off + 4 ≤ length`). -/
def readUInt32LE (data : List Nat) (off : Nat) : Nat :=
  data.getD off 0 + 256 * data.getD (off + 1) 0 + 65536 * data.getD (off + 2) 0 +
    16777216 * data.getD (off + 3) 0

/-- Heart-rate decode of `part_000` (lines 115-118):
`const flags = data[0]; const is16Bit = flags & 0x01;`
`const bpm = is16Bit ? data.readUInt16LE(1) : data[1];`
On an empty buffer `data[0]` is `undefined` and `undefined & 0x01` is `0`.
A `readUInt16LE(1)` on a buffer of length `< 3` throws (`none`); `data[1]` on a
buffer of length `< 2` is `undefined` (`none`). -/
def decodeHeartRateBit0 (data : List Nat) : Option Nat :=
  if data.getD 0 0 % 2 = 1 then
    if 3 ≤ data.length then some (readUInt16LE data 1) else none
  else
    data.get? 1

/-- Heart-rate decode of the weekly-reset variant (line 218) and of `part_002`
(line 154):
`let bpm = data.length >= 2 ? (data[0] === 0x16 ? data.readUInt16LE(1) : data[1]) : data[1];`
The 16-bit branch is selected by comparing the whole flags byte with `0x16`,
not by testing bit 0.  With `data.length = 2` the 16-bit read throws and the
surrounding `try` drops the sample (`none`); with `data.length < 2`, `data[1]`
is `undefined` (`none`). -/
def decodeHeartRateWR (data : List Nat) : Option Nat :=
  if 2 ≤ data.length then
    if data.getD 0 0 = 0x16 then
      if 3 ≤ data.length then some (readUInt16LE data 1) else none
    else some (data.getD 1 0)
  else
    data.get? 1

/-- Step decode of the weekly-reset variant (line 244), `part_002` (line 179)
and the crash-changes variant (lines 140-141):
`const count = data.length >= 4 ? (data.readUInt32LE(1) & 0x00FFFFFF) : 0;`
`readUInt32LE(1)` reads bytes `1..4`, so it needs `length ≥ 5`; on a buffer of
length exactly 4 it throws a `RangeError`, the enclosing `try` catches it and
the whole poll tick is dropped (`none`).  A buffer shorter than 4 bytes yields
the literal count `0`. -/
def decodeStepCountWR (data : List Nat) : Option Nat :=
  if 4 ≤ data.length then
    if 5 ≤ data.length then some (readUInt32LE data 1 % 16777216) else none
  else
    some 0

/-- `setHrHistory(prev => [...prev.slice(-9), bpm])`: keep the last 9 entries
and append the new sample, a FIFO window of capacity 10. -/
def hrPush (w : List Nat) (x : Nat) : List Nat :=
  w.drop (w.length - 9) ++ [x]

/-- `setHrFluctuations(prev => [...prev.slice(-10), {value: bpm, ...}])`
(weekly-reset variant, line 223); only the bpm values are modelled. -/
def fluctPush (w : List Nat) (x : Nat) : List Nat :=
  w.drop (w.length - 10) ++ [x]

/-- `Math.floor(count * 0.045)` (weekly-reset line 247, AWT line 222,
`part_002` line 182), in exact rational arithmetic: `45 * c / 1000` with
`Nat` floor division. -/
def calories (c : Nat) : Nat := 45 * c / 1000

/-- `Math.floor(count * 0.04)` of the crash-changes variant (line 143). -/
def caloriesCrash (c : Nat) : Nat := 40 * c / 1000

/-- `parseFloat(((count * 0.762) / 1000).toFixed(2))`, stored as an integer
number of hundredths of a km (centi-km): the exact value `762 * c / 10^6` km
rounded half-up to 2 decimals is `(762 * c + 5000) / 10000` centi-km. -/
def distanceCentiKm (c : Nat) : Nat := (762 * c + 5000) / 10000

/-- The `dailyRecords` React state: `{ steps, avgHr, calories, distance }`.
`avgHr` is the spec's `DailyRecord.lastHeartRate` (it is replaced, not
averaged); distance is held in centi-km. -/
structure DailyRecords where
  steps : Nat
  avgHr : Nat
  calories : Nat
  distanceCentiKm : Nat
deriving DecidableEq

/-- The `weeklyStats` React state: `{ steps, calories, distance }`. -/
structure WeeklyStats where
  steps : Nat
  calories : Nat
  distanceCentiKm : Nat
deriving DecidableEq

/-- The aggregator-owned mutable state of the weekly-reset / AWT variants:
displayed band steps, current heart rate, the two history windows, the daily
record and the weekly record. -/
structure AppState where
  bandSteps : Nat
  heartRate : Nat
  hrHistory : List Nat
  hrFluct : List Nat
  daily : DailyRecords
  weekly : WeeklyStats
deriving DecidableEq

/-- Initial React state of the weekly-reset variant: zeros everywhere and
`hrHistory = [0, 0, 0, 0, 0]`. -/
def initState : AppState :=
  { bandSteps := 0
    heartRate := 0
    hrHistory := [0, 0, 0, 0, 0]
    hrFluct := []
    daily := { steps := 0, avgHr := 0, calories := 0, distanceCentiKm := 0 }
    weekly := { steps := 0, calories := 0, distanceCentiKm := 0 } }

/-- The heart-rate acceptance path of the weekly-reset variant
(lines 219-225): `if (bpm > 30 && bpm < 220) { setHeartRate(bpm);`
`setHrHistory(...); setHrFluctuations(...); setDailyRecords(prev => ({...prev, avgHr: bpm})); }`.
Out-of-range values leave the state untouched.  `part_002` (lines 155-159) is
identical except that it has no `hrFluctuations` window. -/
def applyHr (bpm : Nat) (st : AppState) : AppState :=
  if 30 < bpm ∧ bpm < 220 then
    { st with
        heartRate := bpm
        hrHistory := hrPush st.hrHistory bpm
        hrFluct := fluctPush st.hrFluct bpm
        daily := { st.daily with avgHr := bpm } }
  else st

/-- `updateWeeklyStats` of the weekly-reset variant (lines 100-109):
`const totalSteps = currentSteps * 7;` then steps/calories/distance are all
derived from `totalSteps` by the fixed conversion formulas. -/
def updateWeeklyStats (currentSteps : Nat) : WeeklyStats :=
  { steps := currentSteps * 7
    calories := calories (currentSteps * 7)
    distanceCentiKm := distanceCentiKm (currentSteps * 7) }

/-- `updateWeeklyStats` of the add-weekly-total variant (lines 92-99): the
weekly record is derived from `currentSteps` itself (no `* 7`). -/
def updateWeeklyStatsAWT (currentSteps : Nat) : WeeklyStats :=
  { steps := currentSteps
    calories := calories currentSteps
    distanceCentiKm := distanceCentiKm currentSteps }

/-- The step acceptance path of the weekly-reset variant (lines 245-251):
`if (count > 0) { ... setBandSteps(count); setDailyRecords(...);`
`updateWeeklyStats(count); }`; a decoded count of 0 changes nothing. -/
def applyStep (count : Nat) (st : AppState) : AppState :=
  if 0 < count then
    { st with
        bandSteps := count
        daily :=
          { steps := count
            avgHr := st.daily.avgHr
            calories := calories count
            distanceCentiKm := distanceCentiKm count }
        weekly := updateWeeklyStats count }
  else st

/-- The step acceptance path of the add-weekly-total variant (lines 220-226):
same zero guard, weekly record via `updateWeeklyStatsAWT`. -/
def applyStepAWT (count : Nat) (st : AppState) : AppState :=
  if 0 < count then
    { st with
        bandSteps := count
        daily :=
          { steps := count
            avgHr := st.daily.avgHr
            calories := calories count
            distanceCentiKm := distanceCentiKm count }
        weekly := updateWeeklyStatsAWT count }
  else st

/-- The mutable state of the crash-changes variant (no weekly record). -/
structure CrashState where
  bandSteps : Nat
  daily : DailyRecords
deriving DecidableEq

/-- The step path of the crash-changes variant (lines 140-146): inside
`if (data.length >= 4)` the decoded count is applied unconditionally — there
is no `count > 0` guard, so a decoded 0 overwrites the band steps and the
daily record with zeros. -/
def applyStepCrash (count : Nat) (st : CrashState) : CrashState :=
  { bandSteps := count
    daily :=
      { steps := count
        avgHr := st.daily.avgHr
        calories := caloriesCrash count
        distanceCentiKm := distanceCentiKm count } }

/-- The session resources owned by `connectToDevice`:
`connected` mirrors `connectedDevice != null` (and the poll tick's
`isConnected()` probe), `pollActive` whether the 10-second `stepInterval`
timer is still scheduled, `hrSubActive` whether the heart-rate notification
subscription is still registered, `statusMsg` the `status` text. -/
structure Session where
  connected : Bool
  pollActive : Bool
  hrSubActive : Bool
  statusMsg : String
deriving DecidableEq

/-- The session right after a successful connect in steady-state monitoring:
device connected, poll interval running, HR subscription registered. -/
def monitoringSession : Session :=
  { connected := true, pollActive := true, hrSubActive := true, statusMsg := "Connected" }

/-- The `onDisconnected` handler of the weekly-reset variant (lines 256-261):
`setConnectedDevice(null); setStatus("Disconnected"); clearInterval(stepInterval);`
`hrSubscription.remove();` — one teardown cancelling both the poll interval
and the notification subscription. -/
def onDisconnectedWR (_s : Session) : Session :=
  { connected := false, pollActive := false, hrSubActive := false, statusMsg := "Disconnected" }

/-- The `onDisconnected` handler of `part_002` (lines 190-194):
`setConnectedDevice(null); setStatus("Disconnected"); clearInterval(stepInterval);`
— the heart-rate subscription is NOT removed (it is not even bound to a
variable in that variant). -/
def onDisconnectedP2 (s : Session) : Session :=
  { connected := false, pollActive := false, hrSubActive := s.hrSubActive,
    statusMsg := "Disconnected" }

/-- A decoded measurement delivered into the aggregator. -/
inductive Sample where
  | hr (bpm : Nat)
  | stepCount (n : Nat)
deriving DecidableEq

/-- Inbound transport events during a session: a heart-rate notification
frame, a poll-tick read result, or the asynchronous disconnect signal. -/
inductive BandEvent where
  | hrNotify (buf : List Nat)
  | pollTick (buf : List Nat)
  | disconnectSignal
deriving DecidableEq

/-- Samples the weekly-reset HR callback delivers for one notification frame:
nothing unless the subscription is registered; then decode and apply the
`bpm > 30 && bpm < 220` filter. -/
def hrDeliveredWR (s : Session) (buf : List Nat) : List Sample :=
  if s.hrSubActive then
    match decodeHeartRateWR buf with
    | some bpm => if 30 < bpm ∧ bpm < 220 then [Sample.hr bpm] else []
    | none => []
  else []

/-- Samples the weekly-reset poll tick delivers: nothing unless the interval
is scheduled and `isConnected()` holds (lines 232-234); then decode and apply
the `count > 0` filter. -/
def pollDeliveredWR (s : Session) (buf : List Nat) : List Sample :=
  if s.pollActive && s.connected then
    match decodeStepCountWR buf with
    | some c => if 0 < c then [Sample.stepCount c] else []
    | none => []
  else []

/-- Samples the `part_002` poll tick delivers: its callback only checks
`deviceRef.current` (line 167), which is never reset, so only the interval
being scheduled gates delivery. -/
def pollDeliveredP2 (s : Session) (buf : List Nat) : List Sample :=
  if s.pollActive then
    match decodeStepCountWR buf with
    | some c => if 0 < c then [Sample.stepCount c] else []
    | none => []
  else []

/-- One event step of the weekly-reset session. -/
def stepWR (s : Session) : BandEvent → Session × List Sample
  | BandEvent.hrNotify buf => (s, hrDeliveredWR s buf)
  | BandEvent.pollTick buf => (s, pollDeliveredWR s buf)
  | BandEvent.disconnectSignal => (onDisconnectedWR s, [])

/-- One event step of the `part_002` session (HR decode and filters are
identical to the weekly-reset variant; only the teardown and the poll guard
differ). -/
def stepP2 (s : Session) : BandEvent → Session × List Sample
  | BandEvent.hrNotify buf => (s, hrDeliveredWR s buf)
  | BandEvent.pollTick buf => (s, pollDeliveredP2 s buf)
  | BandEvent.disconnectSignal => (onDisconnectedP2 s, [])

/-- Run the weekly-reset session over a list of events, collecting every
delivered sample. -/
def runWR (s : Session) : List BandEvent → Session × List Sample
  | [] => (s, [])
  | e :: es =>
    let p := stepWR s e
    let q := runWR p.1 es
    (q.1, p.2 ++ q.2)

/-- Run the `part_002` session over a list of events. -/
def runP2 (s : Session) : List BandEvent → Session × List Sample
  | [] => (s, [])
  | e :: es =>
    let p := stepP2 s e
    let q := runP2 p.1 es
    (q.1, p.2 ++ q.2)

/-- The combined blob written under `STORAGE_KEY`
(`{ dailyRecords, hrHistory, hrFluctuations, weeklyStats }`). -/
structure StoredBlob where
  daily : DailyRecords
  hrHistory : List Nat
  hrFluct : List Nat
  weekly : WeeklyStats
deriving DecidableEq

/-- Serialization of the current app state into the stored blob
(`JSON.stringify({ dailyRecords, hrHistory, hrFluctuations, weeklyStats })`). -/
def serializeBlob (st : AppState) : StoredBlob :=
  { daily := st.daily
    hrHistory := st.hrHistory
    hrFluct := st.hrFluct
    weekly := st.weekly }

/-- The auto-save effect of the weekly-reset variant (lines 119-127): on every
change of the watched state it writes the combined blob, but only when
`dailyRecords.steps > 0`; otherwise the persisted blob is left as it was.
`part_002` (lines 69-77) is the same with a smaller blob. -/
def autoSave (st : AppState) (stored : Option StoredBlob) : Option StoredBlob :=
  if 0 < st.daily.steps then some (serializeBlob st) else stored

/-- A zeroed weekly record, `{ steps: 0, calories: 0, distance: 0 }`. -/
def zeroWeekly : WeeklyStats :=
  { steps := 0, calories := 0, distanceCentiKm := 0 }

/-- The state `checkWeeklyReset` touches: the in-memory weekly record, the
persisted `@last_weekly_reset` marker (`none` when the key is absent) and the
persisted `@health_data_v1` blob. -/
structure RollupState where
  weekly : WeeklyStats
  marker : Option String
  blob : Option StoredBlob
deriving DecidableEq

/-- `checkWeeklyReset` of the weekly-reset variant (lines 49-76): if today is
Monday and the stored marker differs from today's date string, zero the
weekly record, store today's date as the marker, and patch the stored blob's
`weeklyStats` (when a blob exists); otherwise do nothing.  The marker
comparison is the sole guard against double resets.
`handleWeeklyReset` of the AWT variant (lines 53-72) uses the same guard. -/
def checkWeeklyReset (todayStr : String) (isMonday : Bool) (s : RollupState) : RollupState :=
  if isMonday ∧ s.marker ≠ some todayStr then
    { weekly := zeroWeekly
      marker := some todayStr
      blob := s.blob.map (fun b => { b with weekly := zeroWeekly }) }
  else s

/-! ## Helper lemmas -/

/-- The `Nat.floor` of a quotient of natural casts is `Nat` division. -/
theorem natFloor_cast_div (a b : Nat) : ⌊(a : ℚ) / (b : ℚ)⌋₊ = a / b := by
  rcases Nat.eq_zero_or_pos b with hb | hb
  · subst hb; simp
  · rw [Nat.floor_div_nat (a : ℚ) b, Nat.floor_natCast]

/-- A session with both resources released delivers nothing, whatever events
the transport produces afterwards (weekly-reset semantics). -/
theorem runWR_released (evs : List BandEvent) :
    ∀ s : Session, s.pollActive = false → s.hrSubActive = false →
      (runWR s evs).2 = [] := by
  induction evs with
  | nil => intro s _ _; rfl
  | cons e es ih =>
    intro s h1 h2
    cases e with
    | hrNotify buf => simp [runWR, stepWR, hrDeliveredWR, h2, ih s h1 h2]
    | pollTick buf => simp [runWR, stepWR, pollDeliveredWR, h1, ih s h1 h2]
    | disconnectSignal =>
      simp [runWR, stepWR, ih (onDisconnectedWR s) rfl rfl]

/-- The heart-rate callback only ever emits `Sample.hr` values. -/
theorem hrDelivered_no_step (s : Session) (buf : List Nat) (n : Nat) :
    Sample.stepCount n ∉ hrDeliveredWR s buf := by
  unfold hrDeliveredWR
  split
  · cases decodeHeartRateWR buf with
    | some bpm => split <;> simp
    | none => simp
  · simp

/-- Once the `part_002` poll interval is cleared, no step sample is ever
delivered again: no later event reschedules the interval. -/
theorem runP2_no_step (evs : List BandEvent) :
    ∀ s : Session, s.pollActive = false → ∀ n : Nat,
      Sample.stepCount n ∉ (runP2 s evs).2 := by
  induction evs with
  | nil => intro s _ n; simp [runP2]
  | cons e es ih =>
    intro s h n
    cases e with
    | hrNotify buf =>
      simp only [runP2, stepP2, List.mem_append]
      rintro (hmem | hmem)
      · exact hrDelivered_no_step s buf n hmem
      · exact ih s h n hmem
    | pollTick buf =>
      simp only [runP2, stepP2, pollDeliveredP2, h]
      simpa using ih s h n
    | disconnectSignal =>
      simp only [runP2, stepP2]
      simpa using ih (onDisconnectedP2 s) rfl n

/-! ## Claims -/

/-- Claim C1 (amended).  The decoder of `part_000` selects the value width
from bit 0 of the flags byte exactly as the claim states: bit 0 set with
length ≥ 3 gives the little-endian 16-bit value at offset 1; bit 0 clear with
length ≥ 2 gives the single byte at offset 1.  The weekly-reset variant
instead selects the 16-bit decode when the flags byte equals `0x16` (with
length ≥ 3) and otherwise returns the single byte at offset 1 (length ≥ 2),
regardless of bit 0. -/
theorem hr_width_selection_by_variant :
    (∀ data : List Nat, data.getD 0 0 % 2 = 1 → 3 ≤ data.length →
        decodeHeartRateBit0 data = some (readUInt16LE data 1)) ∧
    (∀ data : List Nat, data.getD 0 0 % 2 = 0 → 2 ≤ data.length →
        decodeHeartRateBit0 data = some (data.getD 1 0)) ∧
    (∀ data : List Nat, 3 ≤ data.length → data.getD 0 0 = 0x16 →
        decodeHeartRateWR data = some (readUInt16LE data 1)) ∧
    (∀ data : List Nat, 2 ≤ data.length → data.getD 0 0 ≠ 0x16 →
        decodeHeartRateWR data = some (data.getD 1 0)) := by
  refine ⟨?_, ?_, ?_, ?_⟩
  · intro data h1 h2
    unfold decodeHeartRateBit0
    rw [if_pos h1, if_pos h2]
  · intro data h1 h2
    match data, h2 with
    | a :: b :: rest, _ =>
      unfold decodeHeartRateBit0
      rw [if_neg (by omega)]
      rfl
  · intro data h1 h2
    match data, h1 with
    | a :: b :: c :: rest, _ =>
      unfold decodeHeartRateWR
      rw [if_pos (by simp only [List.length_cons]; omega), if_pos h2,
        if_pos (by simp only [List.length_cons]; omega)]
  · intro data h1 h2
    match data, h1 with
    | a :: b :: rest, _ =>
      unfold decodeHeartRateWR
      rw [if_pos (by simp only [List.length_cons]; omega), if_neg h2]

/-- Claim C1 counterexample: on the buffer `[1, 80, 1]` bit 0 of the flags
byte is set and the length is 3, so the claim requires the little-endian
16-bit value `336`; the weekly-reset decoder returns `80` (the single byte at
offset 1), because `1 ≠ 0x16`. -/
theorem hr_width_claim_false_on_wr :
    decodeHeartRateWR [1, 80, 1] = some 80 ∧
    readUInt16LE [1, 80, 1] 1 = 336 ∧
    (1 : Nat) % 2 = 1 ∧ 3 ≤ [1, 80, 1].length ∧ (80 : Nat) ≠ 336 := by
  decide

/-- Claim C1 witness: concrete instances of all four branches of the amended
width-selection theorem. -/
theorem hr_width_selection_witness :
    decodeHeartRateBit0 [1, 40, 1] = some (readUInt16LE [1, 40, 1] 1) ∧
    decodeHeartRateBit0 [0, 80] = some ([0, 80].getD 1 0) ∧
    decodeHeartRateWR [22, 40, 1] = some (readUInt16LE [22, 40, 1] 1) ∧
    decodeHeartRateWR [0, 80] = some ([0, 80].getD 1 0) :=
  ⟨hr_width_selection_by_variant.1 [1, 40, 1] (by decide) (by decide),
   hr_width_selection_by_variant.2.1 [0, 80] (by decide) (by decide),
   hr_width_selection_by_variant.2.2.1 [22, 40, 1] (by decide) (by decide),
   hr_width_selection_by_variant.2.2.2 [0, 80] (by decide) (by decide)⟩

/-- Claim C2 (code bug).  On the 4-byte buffer `[0x00, 0x64, 0x00, 0x00]` the
guard `data.length >= 4` passes but `readUInt32LE(1)` needs bytes 1..4 and
throws, so the poll tick is dropped and no value is produced (`none`), where
the claim (and the evident intent of the guard) expects the masked value 100.
With one more byte the decode returns exactly the claimed masked value. -/
theorem step_decode_len4_throws :
    decodeStepCountWR [0, 100, 0, 0] = none ∧
    (100 + 256 * 0 + 65536 * 0) % 16777216 = 100 ∧
    decodeStepCountWR [0, 100, 0, 0, 0] = some 100 ∧
    decodeStepCountWR [0, 100, 0] = some 0 := by
  decide

/-- Claim C3 (amended).  From `Monitoring`, a disconnect event transitions the
session to `Disconnected` and cancels the step poll interval in both cited
variants.  The weekly-reset variant additionally releases the heart-rate
notification subscription in the same teardown, after which no poll read or
decoded sample of any kind is delivered.  The `part_002` variant leaves the
notification subscription registered (only the interval is cleared), so only
step samples are guaranteed to stop. -/
theorem disconnect_teardown_by_variant :
    (∀ s : Session, (onDisconnectedWR s).statusMsg = "Disconnected" ∧
        (onDisconnectedWR s).pollActive = false ∧
        (onDisconnectedWR s).hrSubActive = false ∧
        (onDisconnectedWR s).connected = false) ∧
    (∀ (s : Session) (evs : List BandEvent),
        (runWR (onDisconnectedWR s) evs).2 = []) ∧
    (∀ s : Session, (onDisconnectedP2 s).statusMsg = "Disconnected" ∧
        (onDisconnectedP2 s).pollActive = false ∧
        (onDisconnectedP2 s).hrSubActive = s.hrSubActive) ∧
    (∀ (s : Session) (evs : List BandEvent) (n : Nat),
        Sample.stepCount n ∉ (runP2 (onDisconnectedP2 s) evs).2) := by
  refine ⟨?_, ?_, ?_, ?_⟩
  · intro s; exact ⟨rfl, rfl, rfl, rfl⟩
  · intro s evs; exact runWR_released evs (onDisconnectedWR s) rfl rfl
  · intro s; exact ⟨rfl, rfl, rfl⟩
  · intro s evs n; exact runP2_no_step evs (onDisconnectedP2 s) rfl n

/-- Claim C3 counterexample: after the `part_002` teardown from the monitoring
state, a heart-rate notification frame still produces a decoded sample,
because the notification subscription was never released.  The claim requires
that no decoded samples be delivered after the teardown. -/
theorem hr_sample_after_p2_teardown :
    (runP2 (onDisconnectedP2 monitoringSession)
        [BandEvent.hrNotify [0, 100]]).2 = [Sample.hr 100] ∧
    (onDisconnectedP2 monitoringSession).hrSubActive = true ∧
    (runWR (onDisconnectedWR monitoringSession)
        [BandEvent.hrNotify [0, 100]]).2 = [] := by
  decide

/-- Claim C4 (amended).  A decoded heart-rate value is accepted — current
heart rate, both history windows and `DailyRecord.lastHeartRate` (`avgHr`)
updated — if and only if `30 < bpm < 220` (strict bounds, `bpm > 30 && bpm < 220`
in the source), not the claimed inclusive `30 <= bpm <= 220`; every value
outside the open interval is discarded silently with the whole state
unchanged. -/
theorem hr_accept_strict_bounds :
    (∀ (bpm : Nat) (st : AppState), bpm ≤ 30 → applyHr bpm st = st) ∧
    (∀ (bpm : Nat) (st : AppState), 220 ≤ bpm → applyHr bpm st = st) ∧
    (∀ (bpm : Nat) (st : AppState), 30 < bpm → bpm < 220 →
        (applyHr bpm st).heartRate = bpm ∧
        (applyHr bpm st).hrHistory = hrPush st.hrHistory bpm ∧
        (applyHr bpm st).hrFluct = fluctPush st.hrFluct bpm ∧
        (applyHr bpm st).daily.avgHr = bpm ∧
        (applyHr bpm st).daily.steps = st.daily.steps ∧
        (applyHr bpm st).daily.calories = st.daily.calories ∧
        (applyHr bpm st).daily.distanceCentiKm = st.daily.distanceCentiKm ∧
        (applyHr bpm st).weekly = st.weekly ∧
        (applyHr bpm st).bandSteps = st.bandSteps) := by
  refine ⟨?_, ?_, ?_⟩
  · intro bpm st h
    have hc : ¬(30 < bpm ∧ bpm < 220) := by omega
    simp [applyHr, hc]
  · intro bpm st h
    have hc : ¬(30 < bpm ∧ bpm < 220) := by omega
    simp [applyHr, hc]
  · intro bpm st h1 h2
    have hc : 30 < bpm ∧ bpm < 220 := ⟨h1, h2⟩
    simp [applyHr, hc]

/-- Claim C4 counterexample: the boundary values 30 and 220 lie inside the
claimed inclusive range `[30, 220]`, so the claim requires them to be
accepted, but the code discards both and leaves the state unchanged. -/
theorem hr_bounds_inclusive_false :
    applyHr 30 initState = initState ∧
    applyHr 220 initState = initState ∧
    initState.heartRate = 0 ∧
    (30 : Nat) ≤ 30 ∧ (30 : Nat) ≤ 220 ∧ (30 : Nat) ≤ 220 ∧ (220 : Nat) ≤ 220 := by
  decide

/-- Claim C4 witness: a rejected sample at 25, a rejected sample at 250 and an
accepted sample at 100. -/
theorem hr_accept_strict_bounds_witness :
    applyHr 25 initState = initState ∧
    applyHr 250 initState = initState ∧
    (applyHr 100 initState).heartRate = 100 :=
  ⟨hr_accept_strict_bounds.1 25 initState (by decide),
   hr_accept_strict_bounds.2.1 250 initState (by decide),
   (hr_accept_strict_bounds.2.2 100 initState (by decide) (by decide)).1⟩

/-- Claim C5 (amended).  In the weekly-reset variant every accepted step
reading `c` sets `caloriesEstimate = floor(c * 0.045)` and
`distanceEstimateKm = round(c * 0.000762, 2)` (held here in centi-km), so a
5000-step reading yields 225 kcal and 3.81 km; the crash-changes variant uses
the factor 0.04 instead of 0.045 and yields 200 kcal at 5000 steps. -/
theorem daily_metric_formulas :
    (∀ (c : Nat) (st : AppState), 0 < c →
        (applyStep c st).daily.calories = calories c ∧
        (applyStep c st).daily.distanceCentiKm = distanceCentiKm c) ∧
    (∀ c : Nat, calories c = ⌊(c : ℚ) * (45 / 1000)⌋₊) ∧
    (∀ c : Nat, distanceCentiKm c = ⌊(c : ℚ) * 762 / 10000 + 1 / 2⌋₊) ∧
    (∀ (c : Nat) (st : CrashState),
        (applyStepCrash c st).daily.calories = caloriesCrash c) ∧
    (∀ c : Nat, caloriesCrash c = ⌊(c : ℚ) * (40 / 1000)⌋₊) ∧
    calories 5000 = 225 ∧ distanceCentiKm 5000 = 381 ∧ caloriesCrash 5000 = 200 := by
  refine ⟨?_, ?_, ?_, ?_, ?_, by decide, by decide, by decide⟩
  · intro c st h
    simp [applyStep, h]
  · intro c
    have h : (c : ℚ) * (45 / 1000) = ((45 * c : Nat) : ℚ) / ((1000 : Nat) : ℚ) := by
      push_cast; ring
    rw [calories, h, natFloor_cast_div]
  · intro c
    have h : (c : ℚ) * 762 / 10000 + 1 / 2 =
        ((762 * c + 5000 : Nat) : ℚ) / ((10000 : Nat) : ℚ) := by
      push_cast; ring
    rw [distanceCentiKm, h, natFloor_cast_div]
  · intro c st
    simp [applyStepCrash]
  · intro c
    have h : (c : ℚ) * (40 / 1000) = ((40 * c : Nat) : ℚ) / ((1000 : Nat) : ℚ) := by
      push_cast; ring
    rw [caloriesCrash, h, natFloor_cast_div]

/-- Claim C5 counterexample: the crash-changes variant computes the daily
calories of a 5000-step reading as 200, while the claimed fixed factor 0.045
gives 225. -/
theorem crash_calorie_factor_differs :
    (applyStepCrash 5000
        { bandSteps := 0,
          daily := { steps := 0, avgHr := 0, calories := 0, distanceCentiKm := 0 } }).daily.calories
      = 200 ∧
    calories 5000 = 225 ∧ (200 : Nat) ≠ 225 := by
  decide

/-- Claim C5 witness: the accepted-reading formulas applied at 5000 steps. -/
theorem daily_metric_formulas_witness :
    (applyStep 5000 initState).daily.calories = calories 5000 ∧
    (applyStep 5000 initState).daily.distanceCentiKm = distanceCentiKm 5000 :=
  daily_metric_formulas.1 5000 initState (by decide)

/-- Claim C6 (confirmed).  The weekly reset check is idempotent within one
boundary instance: when the persisted marker already equals today's date
string the check is a no-op on the whole rollup state (weekly record, marker
and stored blob), and running the check twice on the same date is the same as
running it once, whatever the starting state. -/
theorem weekly_reset_idempotent :
    (∀ (t : String) (m : Bool) (s : RollupState),
        s.marker = some t → checkWeeklyReset t m s = s) ∧
    (∀ (t : String) (m : Bool) (s : RollupState),
        checkWeeklyReset t m (checkWeeklyReset t m s) = checkWeeklyReset t m s) := by
  constructor
  · intro t m s h
    simp [checkWeeklyReset, h]
  · intro t m s
    by_cases hC : m = true ∧ s.marker ≠ some t
    · have h1 : checkWeeklyReset t m s =
          { weekly := zeroWeekly, marker := some t,
            blob := s.blob.map (fun b => { b with weekly := zeroWeekly }) } := by
        simp [checkWeeklyReset, hC]
      rw [h1]
      simp [checkWeeklyReset]
    · have h1 : checkWeeklyReset t m s = s := by
        simp [checkWeeklyReset]
        intro hm hmark
        exact absurd ⟨hm, hmark⟩ hC
      rw [h1, h1]

/-- Claim C6 witness: a Monday state whose marker already records today is
left entirely unchanged by another run of the check. -/
theorem weekly_reset_idempotent_witness :
    checkWeeklyReset "Mon Oct 23 2023" true
        { weekly := { steps := 70000, calories := 3150, distanceCentiKm := 5334 },
          marker := some "Mon Oct 23 2023", blob := none } =
      { weekly := { steps := 70000, calories := 3150, distanceCentiKm := 5334 },
        marker := some "Mon Oct 23 2023", blob := none } :=
  weekly_reset_idempotent.1 "Mon Oct 23 2023" true _ rfl

/-- Claim C7 (amended).  In the weekly-reset and add-weekly-total variants a
decoded step count of exactly 0 is discarded and the whole aggregator state
(band steps, daily record, weekly record, history) is unchanged.  The
crash-changes variant has no zero guard: a decoded 0 overwrites the band
steps and the daily record with zeros. -/
theorem zero_step_reading_by_variant :
    (∀ st : AppState, applyStep 0 st = st) ∧
    (∀ st : AppState, applyStepAWT 0 st = st) ∧
    (∀ st : CrashState, (applyStepCrash 0 st).bandSteps = 0 ∧
        (applyStepCrash 0 st).daily.steps = 0 ∧
        (applyStepCrash 0 st).daily.calories = 0 ∧
        (applyStepCrash 0 st).daily.distanceCentiKm = 0 ∧
        (applyStepCrash 0 st).daily.avgHr = st.daily.avgHr) := by
  refine ⟨?_, ?_, ?_⟩
  · intro st; simp [applyStep]
  · intro st; simp [applyStepAWT]
  · intro st
    refine ⟨rfl, rfl, rfl, rfl, rfl⟩

/-- Claim C7 counterexample: in the crash-changes variant a decoded 0 is not
discarded — it wipes a daily record of 5000 steps down to 0, changing both
the displayed band count and the daily record, where the claim requires both
to be unchanged. -/
theorem crash_zero_not_discarded :
    (applyStepCrash 0
        { bandSteps := 5000,
          daily := { steps := 5000, avgHr := 70, calories := 225, distanceCentiKm := 381 } }).daily.steps
      = 0 ∧
    applyStepCrash 0
        { bandSteps := 5000,
          daily := { steps := 5000, avgHr := 70, calories := 225, distanceCentiKm := 381 } } ≠
      { bandSteps := 5000,
        daily := { steps := 5000, avgHr := 70, calories := 225, distanceCentiKm := 381 } } := by
  decide

/-- Claim C8 (amended).  After every accepted step reading the weekly record
is re-derived from the current daily reading alone (no multi-day sum), but
the two cited variants disagree on the derivation: the add-weekly-total
variant uses the daily snapshot itself (weekly steps = daily steps), while
the weekly-reset variant multiplies the snapshot by 7; in both, weekly
calories and distance are computed from the resulting weekly step count by
the fixed conversion formulas. -/
theorem weekly_rederivation_by_variant :
    (∀ (c : Nat) (st : AppState), 0 < c →
        (applyStep c st).weekly = updateWeeklyStats c) ∧
    (∀ c : Nat, (updateWeeklyStats c).steps = c * 7 ∧
        (updateWeeklyStats c).calories = calories (c * 7) ∧
        (updateWeeklyStats c).distanceCentiKm = distanceCentiKm (c * 7)) ∧
    (∀ (c : Nat) (st : AppState), 0 < c →
        (applyStepAWT c st).weekly = updateWeeklyStatsAWT c ∧
        (applyStepAWT c st).weekly.steps = (applyStepAWT c st).daily.steps) ∧
    (∀ c : Nat, (updateWeeklyStatsAWT c).steps = c ∧
        (updateWeeklyStatsAWT c).calories = calories c ∧
        (updateWeeklyStatsAWT c).distanceCentiKm = distanceCentiKm c) := by
  refine ⟨?_, ?_, ?_, ?_⟩
  · intro c st h; simp [applyStep, h]
  · intro c; exact ⟨rfl, rfl, rfl⟩
  · intro c st h
    constructor
    · simp [applyStepAWT, h]
    · simp [applyStepAWT, h, updateWeeklyStatsAWT]
  · intro c; exact ⟨rfl, rfl, rfl⟩

/-- Claim C8 counterexample: in the weekly-reset variant an accepted reading
of 5000 steps leaves a weekly step count of 35000, not the daily snapshot
5000 that the claim says stands in for the weekly total. -/
theorem weekly_steps_times_seven :
    (applyStep 5000 initState).weekly.steps = 35000 ∧
    (applyStep 5000 initState).daily.steps = 5000 ∧
    (35000 : Nat) ≠ 5000 := by
  decide

/-- Claim C8 witness: the weekly re-derivation applied to an accepted reading
of 5000 steps in both variants. -/
theorem weekly_rederivation_witness :
    (applyStep 5000 initState).weekly = updateWeeklyStats 5000 ∧
    (applyStepAWT 5000 initState).weekly.steps = (applyStepAWT 5000 initState).daily.steps :=
  ⟨weekly_rederivation_by_variant.1 5000 initState (by decide),
   (weekly_rederivation_by_variant.2.2.1 5000 initState (by decide)).2⟩

/-- Claim C9 (confirmed).  The heart-rate history window
(`prev.slice(-9)` concatenated with the new sample) is a fixed-capacity FIFO
of capacity 10: appending the eleven values 60..110 (in fives) leaves exactly
the last ten, with 60 evicted — also when starting from the code's initial
`[0, 0, 0, 0, 0]` window; the window never exceeds 10 entries, and a push at
capacity drops exactly the oldest entry. -/
theorem history_window_capacity_ten :
    List.foldl hrPush [] [60, 65, 70, 75, 80, 85, 90, 95, 100, 105, 110] =
      [65, 70, 75, 80, 85, 90, 95, 100, 105, 110] ∧
    List.foldl hrPush [0, 0, 0, 0, 0] [60, 65, 70, 75, 80, 85, 90, 95, 100, 105, 110] =
      [65, 70, 75, 80, 85, 90, 95, 100, 105, 110] ∧
    (∀ (w : List Nat) (x : Nat), (hrPush w x).length ≤ 10) ∧
    (∀ (w : List Nat) (x : Nat), w.length = 10 → hrPush w x = w.tail ++ [x]) := by
  refine ⟨by decide, by decide, ?_, ?_⟩
  · intro w x
    simp only [hrPush, List.length_append, List.length_drop, List.length_cons,
      List.length_nil]
    omega
  · intro w x h
    simp [hrPush, h]

/-- Claim C9 witness: a push on a full window of ten values drops the oldest
and appends the new value. -/
theorem history_window_capacity_ten_witness :
    hrPush [60, 65, 70, 75, 80, 85, 90, 95, 100, 105] 110 =
      [60, 65, 70, 75, 80, 85, 90, 95, 100, 105].tail ++ [110] :=
  history_window_capacity_ten.2.2.2 [60, 65, 70, 75, 80, 85, 90, 95, 100, 105] 110 rfl

/-- Claim C10 (confirmed).  The auto-save effect writes the combined blob to
the store exactly when the daily step count is positive: with
`dailyRecords.steps = 0` the persisted blob (including previously saved
nonzero data) is left untouched, and with a positive count the current state
is serialized and overwrites whatever was stored. -/
theorem auto_save_gated_on_steps :
    (∀ (st : AppState) (stored : Option StoredBlob),
        st.daily.steps = 0 → autoSave st stored = stored) ∧
    (∀ (st : AppState) (stored : Option StoredBlob),
        0 < st.daily.steps → autoSave st stored = some (serializeBlob st)) := by
  constructor
  · intro st stored h; simp [autoSave, h]
  · intro st stored h; simp [autoSave, h]

/-- Claim C10 witness: with zero daily steps a previously saved blob of a
5000-step day survives the auto-save pass; once the state itself holds 5000
steps, the auto-save writes it. -/
theorem auto_save_gated_witness :
    autoSave initState (some (serializeBlob (applyStep 5000 initState))) =
      some (serializeBlob (applyStep 5000 initState)) ∧
    autoSave (applyStep 5000 initState) none =
      some (serializeBlob (applyStep 5000 initState)) :=
  ⟨auto_save_gated_on_steps.1 initState _ rfl,
   auto_save_gated_on_steps.2 (applyStep 5000 initState) none (by decide)⟩

end StepChallenge
